import Mathlib

/-!
Shallow embedding of `src/android/src/main/cpp/native_binder_jni.c`, the
bidirectional byte-message JNI bridge of the native_binder repository.

Modelling conventions:
* Byte buffers crossing the boundary are `List Nat` (a pointer plus length);
  a nullable pointer is an `Option (List Nat)`, `none` standing for NULL.
* The process-wide globals `g_vm`, `g_bridge_class`, `g_handle_call_id` are a
  `GlobalState` record threaded explicitly; `g_dart_callback` is an
  `Option CbFun` threaded explicitly.
* Each JNI call whose outcome the environment decides (GetEnv /
  AttachCurrentThread, FindClass, NewGlobalRef, GetStaticMethodID,
  NewByteArray, the managed `handleCall` method, malloc) is an explicit
  oracle field, so one Lean evaluation corresponds to one concrete run.
* Side effects the claims talk about (did this call attach the thread, did it
  detach it, did it free the callback's buffer, which callback was invoked)
  are recorded as ghost fields of the result records, set exactly where the
  C performs the corresponding call.
-/

namespace NativeBinder

/-- The process-wide globals of the outbound path: `g_vm` (whether
`JNI_OnLoad` stored a VM handle), `g_bridge_class` and `g_handle_call_id`
(NULL or a reference, references modelled as `Nat` handles). -/
structure GlobalState where
  vm : Bool
  bridgeClass : Option Nat
  handleCallId : Option Nat
  deriving Repr, DecidableEq

/-- Environment oracle for one execution of `ensure_bridge`: what `FindClass`
returns (`none` = NULL), what `NewGlobalRef` turns a local class reference
into, and what `GetStaticMethodID` returns (`none` = NULL). -/
structure ResolveEnv where
  findClass : Option Nat
  globalOf : Nat → Nat
  methodId : Option Nat

/-- Guard of `ensure_bridge`'s fast path:
`g_bridge_class != NULL && g_handle_call_id != NULL`. -/
def resolved (st : GlobalState) : Bool :=
  st.bridgeClass.isSome && st.handleCallId.isSome

/-- `ensure_bridge` from the C source. Returns the updated globals, the `int`
result (`true` = 1), and a ghost flag recording whether a class/method lookup
was performed on this execution. -/
def ensure_bridge (st : GlobalState) (e : ResolveEnv) :
    GlobalState × Bool × Bool :=
  if resolved st then (st, true, false)
  else
    match e.findClass with
    | none => ({ st with bridgeClass := none }, false, true)
    | some c =>
        ({ st with bridgeClass := some (e.globalOf c),
                   handleCallId := e.methodId },
         e.methodId.isSome, true)

/-- Outcome of `CallStaticObjectMethod` on the managed `handleCall` entry
point: whether a managed exception is pending afterwards (`ExceptionCheck`),
and the returned byte array (`none` = NULL). -/
structure HandlerOut where
  exn : Bool
  ret : Option (List Nat)

/-- Environment oracle for one execution of `native_binder_call`: whether the
calling thread is already attached (`GetEnv` succeeds rather than returning
`JNI_EDETACHED`), whether `AttachCurrentThread` would succeed, the
`ensure_bridge` oracle, whether `NewByteArray` for the input succeeds, the
behaviour of the managed `handleCall` entry point as a function of the input
bytes, and whether `malloc` for the output buffer succeeds. -/
structure CallEnv where
  threadAttached : Bool
  attachOk : Bool
  resolveEnv : ResolveEnv
  newByteArrayOk : Bool
  handler : List Nat → HandlerOut
  mallocOk : Bool

/-- Result of one execution of `native_binder_call`: the updated globals, the
returned pointer (`none` = NULL), the value stored through `out_len`, and
ghost flags recording whether this call attached the thread (`attached = 1`)
and whether it called `DetachCurrentThread`. -/
structure CallResult where
  st : GlobalState
  ptr : Option (List Nat)
  outLen : Nat
  attachedByCall : Bool
  detachCalled : Bool

/-- `native_binder_call` from the C source, path by path: `*out_len = 0` at
entry; NULL on missing VM or NULL `msg`; `GetEnv` / `AttachCurrentThread`;
`ensure_bridge`; `NewByteArray` + `SetByteArrayRegion` for the input;
`CallStaticObjectMethod`; the `ExceptionCheck || !out_arr` failure check; then
either a `malloc(out_len_val)` + `GetByteArrayRegion` copy (length > 0) or a
`malloc(1)` empty buffer (length 0); `DetachCurrentThread` iff `attached` on
every exit path. -/
def native_binder_call (st : GlobalState) (env : CallEnv)
    (msg : Option (List Nat)) : CallResult :=
  match msg with
  | none => ⟨st, none, 0, false, false⟩
  | some m =>
    if !st.vm then ⟨st, none, 0, false, false⟩
    else if !env.threadAttached && !env.attachOk then
      ⟨st, none, 0, false, false⟩
    else
      let attached := !env.threadAttached
      match ensure_bridge st env.resolveEnv with
      | (st', ok, _) =>
        if !ok then ⟨st', none, 0, attached, attached⟩
        else if !env.newByteArrayOk then ⟨st', none, 0, attached, attached⟩
        else
          let hout := env.handler m
          if hout.exn || hout.ret.isNone then ⟨st', none, 0, attached, attached⟩
          else
            match hout.ret with
            | none => ⟨st', none, 0, attached, attached⟩
            | some out =>
              if 0 < out.length then
                if env.mallocOk then ⟨st', some out, out.length, attached, attached⟩
                else ⟨st', none, 0, attached, attached⟩
              else
                if env.mallocOk then ⟨st', some [], 0, attached, attached⟩
                else ⟨st', none, 0, attached, attached⟩

/-- Whether the calling thread is attached to the managed runtime once the
call has returned: it was attached before or got attached by the call, and
was not detached by the call. -/
def threadAttachedAfter (env : CallEnv) (r : CallResult) : Bool :=
  (env.threadAttached || r.attachedByCall) && !r.detachCalled

/-- Type of the registered Dart callback `DartBinderCallFunc`: input bytes to
output pointer (`none` = NULL pointer; `some []` = non-null pointer with
`*out_len = 0`). -/
abbrev CbFun : Type := List Nat → Option (List Nat)

/-- `dart_binder_register` from the C source: `g_dart_callback = callback`,
overwriting whatever was stored before. -/
def dart_binder_register (callback : Option CbFun) (_prev : Option CbFun) :
    Option CbFun :=
  callback

/-- Environment oracle for one execution of the inbound entry point: whether
`malloc` for the native input copy succeeds, and whether `NewByteArray` for
the managed result succeeds. -/
structure InEnv where
  mallocInOk : Bool
  newByteArrayOk : Bool

/-- Result of one execution of the inbound entry point: the returned
`jbyteArray` (`none` = NULL), and ghost fields recording which callback (if
any) was invoked and whether a non-null callback output buffer was passed to
`free` before returning. -/
structure InResult where
  ret : Option (List Nat)
  invoked : Option CbFun
  outBufFreed : Bool

/-- `Java_com_native_1binder_NativeBinder_callDartNative` from the C source,
path by path: NULL if `g_dart_callback` is NULL; NULL if the input array has
length 0; `malloc` + `GetByteArrayRegion` the native input copy (NULL on
allocation failure); invoke the callback; on `!out_buf || out_len == 0` free
any non-null `out_buf` and return NULL; otherwise `NewByteArray`, copy into
it when allocation succeeded, free `out_buf`, and return the array (NULL when
`NewByteArray` failed). -/
def Java_com_native_1binder_NativeBinder_callDartNative
    (g_dart_callback : Option CbFun) (env : InEnv) (msg : List Nat) :
    InResult :=
  match g_dart_callback with
  | none => ⟨none, none, false⟩
  | some cb =>
    if msg.length = 0 then ⟨none, none, false⟩
    else if !env.mallocInOk then ⟨none, none, false⟩
    else
      match cb msg with
      | none => ⟨none, some cb, false⟩
      | some out =>
        if out.length = 0 then ⟨none, some cb, true⟩
        else if env.newByteArrayOk then ⟨some out, some cb, true⟩
        else ⟨none, some cb, true⟩

/-! ## Helper lemmas -/

/-- The inbound entry point only ever invokes the currently stored callback:
its ghost `invoked` field is `none` or the stored `g_dart_callback`. -/
lemma callDartNative_invoked_eq (g : Option CbFun) (env : InEnv)
    (m : List Nat) :
    (Java_com_native_1binder_NativeBinder_callDartNative g env m).invoked = none ∨
    (Java_com_native_1binder_NativeBinder_callDartNative g env m).invoked = g := by
  unfold Java_com_native_1binder_NativeBinder_callDartNative
  rcases g with _ | cb
  · exact Or.inl rfl
  · by_cases h0 : m.length = 0
    · simp [h0]
    · by_cases h1 : env.mallocInOk
      · rcases hcb : cb m with _ | out
        · simp [h0, h1, hcb]
        · by_cases h2 : out.length = 0
          · simp [h0, h1, hcb, h2]
          · by_cases h3 : env.newByteArrayOk <;> simp [h0, h1, hcb, h2, h3]
      · simp [h0, h1]

/-! ## Claims -/

/-- C10: registering a null callback acts as an unregister: after
`dart_binder_register(NULL)`, the inbound entry point returns NULL for every
input without invoking any callback, exactly as if no callback had ever been
registered. -/
theorem register_null_unregisters (s : Option CbFun) (env : InEnv)
    (m : List Nat) :
    Java_com_native_1binder_NativeBinder_callDartNative
        (dart_binder_register none s) env m = ⟨none, none, false⟩ ∧
    Java_com_native_1binder_NativeBinder_callDartNative
        (dart_binder_register none s) env m
      = Java_com_native_1binder_NativeBinder_callDartNative none env m :=
  ⟨rfl, rfl⟩

/-- C6: callback registration is last-write-wins: after registering `cb1` and
then `cb2`, the stored callback is `cb2`, every subsequent inbound call
invokes `cb2` (if anything) and never `cb1`, and registration itself is total
with no error conditions, unconditionally storing its argument. -/
theorem register_last_write_wins (s : Option CbFun) (cb1 cb2 : CbFun)
    (env : InEnv) (m : List Nat) (h : cb1 ≠ cb2) :
    dart_binder_register (some cb2) (dart_binder_register (some cb1) s)
      = some cb2 ∧
    (Java_com_native_1binder_NativeBinder_callDartNative
        (dart_binder_register (some cb2) (dart_binder_register (some cb1) s))
        env m).invoked ≠ some cb1 ∧
    (∀ c pr, dart_binder_register c pr = c) := by
  refine ⟨rfl, ?_, fun c pr => rfl⟩
  rcases callDartNative_invoked_eq (some cb2) env m with hinv | hinv <;>
    rw [show dart_binder_register (some cb2)
        (dart_binder_register (some cb1) s) = some cb2 from rfl, hinv]
  · exact fun hc => Option.noConfusion hc
  · exact fun hc => h (Option.some.injEq cb2 cb1 ▸ hc).symm

/-- C6 witness: registering the never-answering callback and then the
empty-answer callback stores the latter, and a concrete inbound call on `[1]`
never invokes the former. -/
theorem register_last_write_wins_witness :
    dart_binder_register (some (fun _ => some []))
        (dart_binder_register (some (fun _ => none)) none)
      = some (fun _ => some []) ∧
    (Java_com_native_1binder_NativeBinder_callDartNative
        (dart_binder_register (some (fun _ => some []))
          (dart_binder_register (some (fun _ => none)) none))
        ⟨true, true⟩ [1]).invoked ≠ some (fun _ => none) ∧
    (∀ c pr, dart_binder_register c pr = c) :=
  register_last_write_wins none (fun _ => none) (fun _ => some [])
    ⟨true, true⟩ [1] (fun heq => by simpa using congrFun heq [])

/-- C8: entry-point resolution is idempotent and cached: once `ensure_bridge`
has the references resolved it succeeds immediately without performing a
lookup and never changes them; once it succeeds, the state is resolved and
every later call is the cached fast path; when it fails, the next call
performs the lookup again. -/
theorem ensure_bridge_cached_idempotent (st : GlobalState) (e e2 : ResolveEnv) :
    (resolved st = true → ensure_bridge st e = (st, true, false)) ∧
    ((ensure_bridge st e).2.1 = true →
      resolved (ensure_bridge st e).1 = true) ∧
    ((ensure_bridge st e).2.1 = true →
      ensure_bridge (ensure_bridge st e).1 e2
        = ((ensure_bridge st e).1, true, false)) ∧
    ((ensure_bridge st e).2.1 = false →
      (ensure_bridge (ensure_bridge st e).1 e2).2.2 = true) := by
  by_cases hr : resolved st
  · refine ⟨fun _ => by simp [ensure_bridge, hr], ?_, ?_, ?_⟩ <;>
      simp [ensure_bridge, hr]
  · rcases hfc : e.findClass with _ | c
    · have hfail : ensure_bridge st e
          = ({ st with bridgeClass := none }, false, true) := by
        simp [ensure_bridge, hr, hfc]
      refine ⟨fun h => absurd h (by simp [hr]), ?_, ?_, ?_⟩ <;>
        rw [hfail] <;> simp [ensure_bridge, resolved] <;>
        rcases e2.findClass with _ | c2 <;> simp
    · rcases hmi : e.methodId with _ | mid
      · have hfail : ensure_bridge st e
            = ({ st with bridgeClass := some (e.globalOf c),
                         handleCallId := none }, false, true) := by
          simp [ensure_bridge, hr, hfc, hmi]
        refine ⟨fun h => absurd h (by simp [hr]), ?_, ?_, ?_⟩ <;>
          rw [hfail] <;> simp [ensure_bridge, resolved] <;>
          rcases e2.findClass with _ | c2 <;> simp
      · have hok : ensure_bridge st e
            = ({ st with bridgeClass := some (e.globalOf c),
                         handleCallId := some mid }, true, true) := by
          simp [ensure_bridge, hr, hfc, hmi]
        refine ⟨fun h => absurd h (by simp [hr]), ?_, ?_, ?_⟩ <;>
          rw [hok] <;> simp [ensure_bridge, resolved]

/-- The ghost `attachedByCall` flag of an outbound call is set exactly when
the call had a VM and a message, found the thread detached, and
`AttachCurrentThread` succeeded. -/
lemma native_binder_call_attachedByCall (st : GlobalState) (env : CallEnv)
    (msg : Option (List Nat)) :
    (native_binder_call st env msg).attachedByCall
      = (msg.isSome && (st.vm && (!env.threadAttached && env.attachOk))) := by
  unfold native_binder_call
  rcases msg with _ | m
  · simp
  · rcases hb : ensure_bridge st env.resolveEnv with ⟨st', ok, lk⟩
    rcases hh : env.handler m with ⟨exn, ret⟩
    cases hvm : st.vm <;> cases hta : env.threadAttached <;>
      cases hao : env.attachOk <;> cases ok <;>
      cases hnb : env.newByteArrayOk <;> cases exn <;>
      rcases ret with _ | out <;> cases hml : env.mallocOk <;>
      simp_all <;> rcases out with _ | ⟨b, bs⟩ <;> simp_all

/-- Every exit path of `native_binder_call` runs the conditional
`DetachCurrentThread` with the same `attached` flag it set earlier. -/
lemma native_binder_call_detachCalled (st : GlobalState) (env : CallEnv)
    (msg : Option (List Nat)) :
    (native_binder_call st env msg).detachCalled
      = (native_binder_call st env msg).attachedByCall := by
  unfold native_binder_call
  rcases msg with _ | m
  · simp
  · rcases hb : ensure_bridge st env.resolveEnv with ⟨st', ok, lk⟩
    rcases hh : env.handler m with ⟨exn, ret⟩
    cases hvm : st.vm <;> cases hta : env.threadAttached <;>
      cases hao : env.attachOk <;> cases ok <;>
      cases hnb : env.newByteArrayOk <;> cases exn <;>
      rcases ret with _ | out <;> cases hml : env.mallocOk <;>
      simp_all <;> rcases out with _ | ⟨b, bs⟩ <;> simp_all

/-- C7: thread attachment is call-scoped: on every exit path of
`native_binder_call` the thread is detached if and only if this call attached
it, the thread's attachment state after the call equals its state before the
call, and the call only ever attaches a thread that was not already
attached. -/
theorem attach_call_scoped (st : GlobalState) (env : CallEnv)
    (msg : Option (List Nat)) :
    (native_binder_call st env msg).detachCalled
      = (native_binder_call st env msg).attachedByCall ∧
    threadAttachedAfter env (native_binder_call st env msg)
      = env.threadAttached ∧
    ((native_binder_call st env msg).attachedByCall = true →
      env.threadAttached = false) := by
  refine ⟨native_binder_call_detachCalled st env msg, ?_, ?_⟩
  · rw [threadAttachedAfter, native_binder_call_detachCalled,
      native_binder_call_attachedByCall]
    cases env.threadAttached <;> cases st.vm <;> cases env.attachOk <;>
      cases msg <;> simp
  · rw [native_binder_call_attachedByCall]
    cases env.threadAttached <;> simp

/-- C1: when the managed handler behaves as the identity function and the
environment lets the call go through (VM present, thread attachable or
already attached, entry point resolvable, allocations succeed),
`native_binder_call` returns a buffer byte-equal to the message with
`*out_len` equal to its length, for every message including the empty one,
for which it returns a valid non-null empty buffer rather than NULL. -/
theorem outbound_identity_roundtrip (st : GlobalState) (env : CallEnv)
    (m : List Nat)
    (hvm : st.vm = true)
    (hatt : env.threadAttached = true ∨ env.attachOk = true)
    (hres : (ensure_bridge st env.resolveEnv).2.1 = true)
    (hnba : env.newByteArrayOk = true)
    (hid : ∀ l, env.handler l = ⟨false, some l⟩)
    (hmalloc : env.mallocOk = true) :
    (native_binder_call st env (some m)).ptr = some m ∧
    (native_binder_call st env (some m)).outLen = m.length ∧
    (native_binder_call st env (some m)).ptr ≠ none := by
  have hguard : (!env.threadAttached && !env.attachOk) = false := by
    rcases hatt with h | h <;> simp [h]
  rcases hb : ensure_bridge st env.resolveEnv with ⟨st', ok, lk⟩
  rw [hb] at hres
  replace hres : ok = true := hres
  unfold native_binder_call
  rw [hb]
  rcases m with _ | ⟨b, bs⟩ <;>
    simp [hvm, hguard, hres, hnba, hid, hmalloc]

/-- C1 witness: the identity handler round-trips the concrete message
`[3, 1, 4]` through `native_binder_call` in a concrete healthy
environment. -/
theorem outbound_identity_roundtrip_witness :
    (native_binder_call ⟨true, some 0, some 0⟩
        ⟨true, true, ⟨some 0, id, some 0⟩, true, fun l => ⟨false, some l⟩, true⟩
        (some [3, 1, 4])).ptr = some [3, 1, 4] ∧
    (native_binder_call ⟨true, some 0, some 0⟩
        ⟨true, true, ⟨some 0, id, some 0⟩, true, fun l => ⟨false, some l⟩, true⟩
        (some [3, 1, 4])).outLen = 3 ∧
    (native_binder_call ⟨true, some 0, some 0⟩
        ⟨true, true, ⟨some 0, id, some 0⟩, true, fun l => ⟨false, some l⟩, true⟩
        (some [3, 1, 4])).ptr ≠ none :=
  outbound_identity_roundtrip _ _ _ rfl (Or.inl rfl) rfl rfl (fun _ => rfl) rfl

/-- C2: a zero-length successful managed response yields a non-null allocated
empty buffer with `*out_len = 0`, distinguishable from every failure (which
returns NULL): when the managed entry point completes without exception and
returns a zero-length array and the environment is healthy,
`native_binder_call` returns `some []`, not `none`. -/
theorem outbound_empty_success_nonnull (st : GlobalState) (env : CallEnv)
    (m : List Nat)
    (hvm : st.vm = true)
    (hatt : env.threadAttached = true ∨ env.attachOk = true)
    (hres : (ensure_bridge st env.resolveEnv).2.1 = true)
    (hnba : env.newByteArrayOk = true)
    (hh : env.handler m = ⟨false, some []⟩)
    (hmalloc : env.mallocOk = true) :
    (native_binder_call st env (some m)).ptr = some [] ∧
    (native_binder_call st env (some m)).outLen = 0 ∧
    (native_binder_call st env (some m)).ptr ≠ none := by
  have hguard : (!env.threadAttached && !env.attachOk) = false := by
    rcases hatt with h | h <;> simp [h]
  rcases hb : ensure_bridge st env.resolveEnv with ⟨st', ok, lk⟩
  rw [hb] at hres
  replace hres : ok = true := hres
  unfold native_binder_call
  rw [hb]
  simp [hvm, hguard, hres, hnba, hh, hmalloc]

/-- C2 witness: a handler that returns an empty array on the concrete message
`[9]` yields the non-null empty buffer with length 0 in a concrete healthy
environment. -/
theorem outbound_empty_success_nonnull_witness :
    (native_binder_call ⟨true, some 0, some 0⟩
        ⟨true, true, ⟨some 0, id, some 0⟩, true, fun _ => ⟨false, some []⟩, true⟩
        (some [9])).ptr = some [] ∧
    (native_binder_call ⟨true, some 0, some 0⟩
        ⟨true, true, ⟨some 0, id, some 0⟩, true, fun _ => ⟨false, some []⟩, true⟩
        (some [9])).outLen = 0 ∧
    (native_binder_call ⟨true, some 0, some 0⟩
        ⟨true, true, ⟨some 0, id, some 0⟩, true, fun _ => ⟨false, some []⟩, true⟩
        (some [9])).ptr ≠ none :=
  outbound_empty_success_nonnull _ _ _ rfl (Or.inl rfl) rfl rfl rfl rfl

/-- C3: every failure of `native_binder_call` is the uniform signal NULL plus
`*out_len = 0`: `*out_len` always equals the length of the returned buffer
(so 0 whenever the result is NULL), and the result is NULL exactly when one
of the failure conditions holds (no VM handle, NULL message, attach needed
and failed, entry-point resolution failure, input-array allocation failure,
managed exception or NULL managed response, or output allocation failure),
with no further distinction surfaced to the caller. -/
theorem outbound_failure_uniform (st : GlobalState) (env : CallEnv)
    (msg : Option (List Nat)) :
    (native_binder_call st env msg).outLen
      = ((native_binder_call st env msg).ptr.getD []).length ∧
    ((native_binder_call st env msg).ptr = none ↔
      st.vm = false ∨ msg = none ∨
      (env.threadAttached = false ∧ env.attachOk = false) ∨
      (ensure_bridge st env.resolveEnv).2.1 = false ∨
      env.newByteArrayOk = false ∨
      (∃ m, msg = some m ∧
        ((env.handler m).exn = true ∨ (env.handler m).ret = none)) ∨
      env.mallocOk = false) := by
  rcases msg with _ | m
  · simp [native_binder_call]
  · rcases hb : ensure_bridge st env.resolveEnv with ⟨st', ok, lk⟩
    rcases hh : env.handler m with ⟨exn, ret⟩
    unfold native_binder_call
    rw [hb]
    cases hvm : st.vm <;> cases hta : env.threadAttached <;>
      cases hao : env.attachOk <;> cases ok <;>
      cases hnb : env.newByteArrayOk <;> cases exn <;>
      rcases ret with _ | out <;> cases hml : env.mallocOk <;>
      simp_all <;> rcases out with _ | ⟨b, bs⟩ <;> simp_all

/-- C4 counterexample: the inbound entry point also returns NULL when
allocating the managed result array fails, a case the claim's "exactly when"
list omits: with a registered callback that returns the non-null non-empty
buffer `[1]` on the non-empty input `[0]`, with the input-copy allocation
succeeding, the result is still NULL when `NewByteArray` fails. -/
theorem inbound_null_cases_counterexample :
    (Java_com_native_1binder_NativeBinder_callDartNative
        (some (fun _ => some [1])) ⟨true, false⟩ [0]).ret = none ∧
    (some (fun _ => some [1]) : Option CbFun) ≠ none ∧
    ([0] : List Nat).length ≠ 0 ∧
    (⟨true, false⟩ : InEnv).mallocInOk = true ∧
    ((fun _ => some [1] : CbFun) [0] ≠ none) ∧
    ((fun _ => some [1] : CbFun) [0] ≠ some []) := by
  refine ⟨rfl, ?_, ?_, rfl, ?_, ?_⟩ <;> simp

/-- C4 amended: the inbound entry point returns NULL exactly when no callback
is registered, the input has length 0, allocating the native input copy
fails, the callback returns a null pointer or a zero-length result, or
allocating the managed result array fails; and whenever the registered
callback was invoked and produced a non-null buffer, that buffer is released
before returning. -/
theorem inbound_null_cases (g : Option CbFun) (env : InEnv) (m : List Nat) :
    ((Java_com_native_1binder_NativeBinder_callDartNative g env m).ret = none ↔
      g = none ∨ m.length = 0 ∨ env.mallocInOk = false ∨
      (∃ cb, g = some cb ∧ (cb m = none ∨ cb m = some [])) ∨
      env.newByteArrayOk = false) ∧
    (∀ cb out, g = some cb → cb m = some out → m.length ≠ 0 →
      env.mallocInOk = true →
      (Java_com_native_1binder_NativeBinder_callDartNative g env m).outBufFreed
        = true) := by
  unfold Java_com_native_1binder_NativeBinder_callDartNative
  rcases g with _ | cb
  · simp
  · by_cases h0 : m.length = 0
    · simp [h0]
    · by_cases h1 : env.mallocInOk = true
      · rcases hcb : cb m with _ | out
        · constructor
          · simp [h0, h1, hcb]
          · intro cb1 out heq hout _ _
            obtain rfl : cb = cb1 := Option.some.inj heq
            rw [hcb] at hout
            exact absurd hout (by simp)
        · rcases out with _ | ⟨b, bs⟩
          · simp [h0, h1, hcb]
          · by_cases h3 : env.newByteArrayOk = true <;>
              simp [h0, h1, hcb, h3]
      · simp [h0, Bool.not_eq_true _ ▸ h1]

/-- C5: after registering a callback, for every non-empty input the inbound
entry point returns exactly the callback's output (the environment's
allocations succeeding): a byte-equal copy for an echoing callback, NULL for
a callback that returns a null pointer, and NULL for a callback that returns
a zero-length non-null buffer — with the three callback outcomes
distinguishable internally through the ghost `invoked` and `outBufFreed`
fields (no callback buffer to free in the null-pointer case, a freed callback
buffer in the zero-length case). -/
theorem inbound_returns_callback_output (s : Option CbFun) (env : InEnv)
    (m : List Nat) (hm : m.length ≠ 0)
    (h1 : env.mallocInOk = true) (h2 : env.newByteArrayOk = true) :
    Java_com_native_1binder_NativeBinder_callDartNative
        (dart_binder_register (some (fun l => some l)) s) env m
      = ⟨some m, some (fun l => some l), true⟩ ∧
    Java_com_native_1binder_NativeBinder_callDartNative
        (dart_binder_register (some (fun _ => none)) s) env m
      = ⟨none, some (fun _ => none), false⟩ ∧
    Java_com_native_1binder_NativeBinder_callDartNative
        (dart_binder_register (some (fun _ => some [])) s) env m
      = ⟨none, some (fun _ => some []), true⟩ := by
  rcases m with _ | ⟨b, bs⟩
  · exact absurd rfl hm
  · refine ⟨?_, ?_, ?_⟩ <;>
      simp [Java_com_native_1binder_NativeBinder_callDartNative,
        dart_binder_register, h1, h2]

/-- C5 witness: the three callback behaviours evaluated on the concrete
non-empty input `[1, 2]` in a concrete healthy environment. -/
theorem inbound_returns_callback_output_witness :
    Java_com_native_1binder_NativeBinder_callDartNative
        (dart_binder_register (some (fun l => some l)) none) ⟨true, true⟩ [1, 2]
      = ⟨some [1, 2], some (fun l => some l), true⟩ ∧
    Java_com_native_1binder_NativeBinder_callDartNative
        (dart_binder_register (some (fun _ => none)) none) ⟨true, true⟩ [1, 2]
      = ⟨none, some (fun _ => none), false⟩ ∧
    Java_com_native_1binder_NativeBinder_callDartNative
        (dart_binder_register (some (fun _ => some [])) none) ⟨true, true⟩ [1, 2]
      = ⟨none, some (fun _ => some []), true⟩ :=
  inbound_returns_callback_output none ⟨true, true⟩ [1, 2]
    (by simp) rfl rfl

end NativeBinder
